import Mathlib

/-!
Shallow embedding of the emergency-profile subsystem of the Health-Insights-Agent
repository (src/frontend/components/emergency_profile_system.py), together with
theorems settling the specification claims about it.

Modelling conventions:
* A Python `datetime` instant is an integer count of seconds since the Unix
  epoch (sub-second precision is dropped; none of the verified behaviour
  depends on it).  A Python `date` is a `Date` record of calendar fields.
  The SQLite `TEXT` columns holding `datetime.isoformat()` strings compare
  and sort exactly like the instants they encode, so they are modelled by
  the instants themselves.
* SQLite rows are records; the tables of the store are Lean lists/options.
  `INSERT OR REPLACE` on a table whose only uniqueness constraint is an
  auto-assigned `INTEGER PRIMARY KEY` behaves as a plain `INSERT` when the
  id is not supplied (no conflict can arise), and is embedded accordingly.
* Python floats stored in the optional `weight_kg`/`height_cm` columns are
  modelled at integer precision (their rendering plays no role in any claim).
* Exceptions are modelled with `Except`; the message of the `ValueError`
  raised by `date.replace` on an invalid calendar date is kept verbatim.
-/

deriving instance DecidableEq for Except

namespace EmergencySys

/-! ## Calendar arithmetic (model of Python datetime/date) -/

structure Date where
  year : Int
  month : Int
  day : Int
deriving DecidableEq

/-- Python `date` comparison: lexicographic on (year, month, day). -/
def Date.lt (a b : Date) : Bool :=
  a.year < b.year ||
    (a.year == b.year && (a.month < b.month ||
      (a.month == b.month && a.day < b.day)))

/-- Proleptic Gregorian leap-year rule used by Python `datetime`. -/
def isLeapYear (y : Int) : Bool :=
  y.emod 4 == 0 && (y.emod 100 != 0 || y.emod 400 == 0)

def daysInMonth (y m : Int) : Int :=
  if m == 2 then (if isLeapYear y then 29 else 28)
  else if m == 4 || m == 6 || m == 9 || m == 11 then 30
  else 31

/-- Validity check performed by Python `date.replace` / the `date` constructor. -/
def isValidDate (y m d : Int) : Bool :=
  1 ≤ m && m ≤ 12 && 1 ≤ d && d ≤ daysInMonth y m

/-- Civil date of a day count since 1970-01-01 (proleptic Gregorian). -/
def civilFromDays (z0 : Int) : Date :=
  let z := z0 + 719468
  let era := z.fdiv 146097
  let doe := z - era * 146097
  let yoe := (doe - doe.fdiv 1460 + doe.fdiv 36524 - doe.fdiv 146096).fdiv 365
  let y := yoe + era * 400
  let doy := doe - (365 * yoe + yoe.fdiv 4 - yoe.fdiv 100)
  let mp := (5 * doy + 2).fdiv 153
  let d := doy - (153 * mp + 2).fdiv 5 + 1
  let m := mp + (if mp < 10 then 3 else -9)
  ⟨y + (if m ≤ 2 then 1 else 0), m, d⟩

/-- Day count since 1970-01-01 of a civil date (inverse of `civilFromDays`). -/
def daysFromCivil (y0 m d : Int) : Int :=
  let y := y0 - (if m ≤ 2 then 1 else 0)
  let era := y.fdiv 400
  let yoe := y - era * 400
  let doy := (153 * (m + (if 2 < m then -3 else 9)) + 2).fdiv 5 + d - 1
  let doe := yoe * 365 + yoe.fdiv 4 - yoe.fdiv 100 + doy
  era * 146097 + doe - 719468

/-- Whole minutes of an instant (seconds since epoch). -/
def tMinutes (t : Int) : Int := t.fdiv 60

/-- Whole days of an instant; `(t.fdiv 60).fdiv 1440 = t.fdiv 86400`. -/
def tDays (t : Int) : Int := (tMinutes t).fdiv 1440

/-- Python `datetime.date()`: the calendar date of an instant. -/
def dtDate (t : Int) : Date := civilFromDays (tDays t)

/-- Build an instant from calendar fields (model of the `datetime` constructor). -/
def dtOf (y mo d hh mi : Int) : Int :=
  (daysFromCivil y mo d * 1440 + hh * 60 + mi) * 60

def secondsPerDay : Int := 86400

/-! ## Decimal / formatted rendering (model of Python str and strftime) -/

/-- Decimal digits of a natural number, most significant first (structural
recursion on a fuel bound; `n + 1` steps always suffice since `n / 10 < n`). -/
def natDecAux : Nat → Nat → List Char
  | 0, _ => []
  | fuel + 1, n =>
    if n < 10 then [Nat.digitChar n]
    else natDecAux fuel (n / 10) ++ [Nat.digitChar (n % 10)]

def natDecChars (n : Nat) : List Char := natDecAux (n + 1) n

/-- Python `str` of a non-negative integer. -/
def natDec (n : Nat) : String := ⟨natDecChars n⟩

/-- Python `str` of an integer. -/
def intDec (i : Int) : String :=
  if i < 0 then "-" ++ natDec i.natAbs else natDec i.toNat

/-- Left-pad with zeros to width `w` (strftime zero padding). -/
def padZeros (w : Nat) (s : String) : String :=
  ⟨List.replicate (w - s.length) '0'⟩ ++ s

def fmt2 (i : Int) : String := padZeros 2 (intDec i)

def fmt4 (i : Int) : String := padZeros 4 (intDec i)

/-- `strftime("%Y-%m-%d")` of a date. -/
def fmtDate (d : Date) : String :=
  fmt4 d.year ++ "-" ++ fmt2 d.month ++ "-" ++ fmt2 d.day

/-- `strftime("%Y-%m-%d")` of an instant. -/
def strftimeDate (t : Int) : String := fmtDate (dtDate t)

/-- `strftime("%Y-%m-%d %H:%M")` of an instant (seconds are dropped, so the
result depends only on `tMinutes t`). -/
def strftimeMin (t : Int) : String :=
  let m := tMinutes t
  fmtDate (civilFromDays (m.fdiv 1440)) ++ " " ++
    fmt2 ((m.emod 1440).fdiv 60) ++ ":" ++ fmt2 ((m.emod 1440).emod 60)

/-! ## Enums (emergency_profile_system.py lines 18-34) -/

inductive BloodType where
  | aPositive | aNegative | bPositive | bNegative
  | abPositive | abNegative | oPositive | oNegative | unknown
deriving DecidableEq

def BloodType.value : BloodType → String
  | .aPositive => "A+"
  | .aNegative => "A-"
  | .bPositive => "B+"
  | .bNegative => "B-"
  | .abPositive => "AB+"
  | .abNegative => "AB-"
  | .oPositive => "O+"
  | .oNegative => "O-"
  | .unknown => "Unknown"

inductive SeverityLevel where
  | critical | high | moderate | low
deriving DecidableEq

def SeverityLevel.value : SeverityLevel → String
  | .critical => "critical"
  | .high => "high"
  | .moderate => "moderate"
  | .low => "low"

/-! ## Dataclasses (emergency_profile_system.py lines 37-120) -/

structure EmergencyContact where
  name : String
  relationship : String
  phone : String
  alternate_phone : Option String := none
deriving DecidableEq

structure Allergy where
  substance : String
  reaction : String
  severity : SeverityLevel
  verified_date : Option Int := none
deriving DecidableEq

structure Medication where
  name : String
  dosage : String
  frequency : String
  prescribing_doctor : String
  start_date : Int
  is_critical : Bool := false
  notes : Option String := none
deriving DecidableEq

structure MedicalCondition where
  condition : String
  diagnosed_date : Int
  severity : SeverityLevel
  current_status : String
  treating_doctor : Option String := none
deriving DecidableEq

structure Surgery where
  procedure : String
  date : Int
  hospital : String
  complications : Option String := none
  implants_devices : Option String := none
deriving DecidableEq

structure VitalMetric where
  metric_type : String
  value : String
  unit : String
  recorded_date : Int
  source : String
  is_abnormal : Bool := false
deriving DecidableEq

structure EmergencyProfile where
  patient_name : String
  date_of_birth : Int
  blood_type : BloodType
  gender : String
  allergies : List Allergy
  medications : List Medication
  medical_conditions : List MedicalCondition
  surgeries : List Surgery
  emergency_contact : EmergencyContact
  recent_vitals : List VitalMetric
  last_updated : Int
  weight_kg : Option Int := none
  height_cm : Option Int := none
  primary_doctor : Option String := none
  primary_doctor_phone : Option String := none
  medical_devices : List String := []
  advance_directives : Option String := none
  insurance_info : Option String := none
  profile_version : String := "1.0"
deriving DecidableEq

/-! ## Age calculation (EmergencyProfile._calculate_age, lines 192-199)

```
today = datetime.now().date()
birth_date = self.date_of_birth.date()
age = today.year - birth_date.year
if today < birth_date.replace(year=today.year):
    age -= 1
return age
```
`birth_date.replace(year=today.year)` raises `ValueError` when the replaced
date is invalid (Feb 29 in a non-leap year). -/

def calculateAge (now dob : Int) : Except String Int :=
  let today := dtDate now
  let birth := dtDate dob
  if isValidDate today.year birth.month birth.day then
    let age := today.year - birth.year
    .ok (if Date.lt today ⟨today.year, birth.month, birth.day⟩ then age - 1 else age)
  else
    .error "day is out of range for month"

/-! ## Emergency dictionary (EmergencyProfile.to_emergency_dict, lines 122-190)

The Python method builds a `dict` whose keys appear in a fixed order; it is
modelled by a record whose field order mirrors the dict-literal key order. -/

structure PatientEntry where
  name : String
  age : Int
  dob : String
  blood_type : String
  gender : String
  weight_kg : Option Int
  height_cm : Option Int
deriving DecidableEq

structure AllergyEntry where
  substance : String
  reaction : String
  severity : String
deriving DecidableEq

structure MedEntry where
  name : String
  dosage : String
  critical : Bool
deriving DecidableEq

structure CondEntry where
  condition : String
  status : String
  severity : String
deriving DecidableEq

structure ContactEntry where
  name : String
  phone : String
  relationship : String
deriving DecidableEq

structure DoctorEntry where
  name : Option String
  phone : Option String
deriving DecidableEq

structure VitalEntry where
  vtype : String
  value : String
  date : String
  abnormal : Bool
deriving DecidableEq

structure SurgeryEntry where
  procedure : String
  date : String
  implants : Option String
deriving DecidableEq

structure EmergencyDict where
  patient : PatientEntry
  critical_allergies : List AllergyEntry
  current_medications : List MedEntry
  conditions : List CondEntry
  devices : List String
  emergency_contact : ContactEntry
  doctor : DoctorEntry
  recent_vitals : List VitalEntry
  major_surgeries : List SurgeryEntry
  directives : Option String
  updated : String
deriving DecidableEq

/-- Python `l[-n:]`: the last `n` elements (the whole list when shorter). -/
def takeLast (n : Nat) (l : List α) : List α := l.drop (l.length - n)

/-- `to_emergency_dict`: the responder-facing projection.  Fails exactly when
`_calculate_age` raises (the age is evaluated while building the dict). -/
def toEmergencyDict (p : EmergencyProfile) (now : Int) : Except String EmergencyDict := do
  let age ← calculateAge now p.date_of_birth
  .ok
    { patient :=
        { name := p.patient_name
          age := age
          dob := strftimeDate p.date_of_birth
          blood_type := p.blood_type.value
          gender := p.gender
          weight_kg := p.weight_kg
          height_cm := p.height_cm }
      critical_allergies :=
        (p.allergies.filter fun a =>
            a.severity == SeverityLevel.critical || a.severity == SeverityLevel.high).map
          fun a => ⟨a.substance, a.reaction, a.severity.value⟩
      current_medications :=
        p.medications.map fun m => ⟨m.name, m.dosage, m.is_critical⟩
      conditions :=
        (p.medical_conditions.filter fun c => c.current_status == "active").map
          fun c => ⟨c.condition, c.current_status, c.severity.value⟩
      devices := p.medical_devices
      emergency_contact :=
        ⟨p.emergency_contact.name, p.emergency_contact.phone, p.emergency_contact.relationship⟩
      doctor := ⟨p.primary_doctor, p.primary_doctor_phone⟩
      recent_vitals :=
        ((takeLast 10 p.recent_vitals).filter fun v =>
            v.is_abnormal || decide (now - 3 * secondsPerDay < v.recorded_date)).map
          fun v => ⟨v.metric_type, v.value, strftimeDate v.recorded_date, v.is_abnormal⟩
      major_surgeries :=
        (takeLast 5 p.surgeries).map
          fun s => ⟨s.procedure, strftimeDate s.date, s.implants_devices⟩
      directives := p.advance_directives
      updated := strftimeMin p.last_updated }

/-! ## Record store (the SQLite database initialised in `_init_database`)

Tables become lists in rowid (insertion) order; the singleton tables
`patient_info` and `emergency_contact` (always written with `id = 1`)
become options. -/

structure PatientRow where
  name : String
  date_of_birth : Int
  blood_type : BloodType
  gender : String
  weight_kg : Option Int := none
  height_cm : Option Int := none
deriving DecidableEq

structure MedicationRow where
  name : String
  dosage : String
  frequency : String
  prescribing_doctor : String
  start_date : Int
  is_critical : Bool
  is_active : Bool
  notes : Option String
deriving DecidableEq

structure Store where
  patient : Option PatientRow
  allergies : List Allergy
  medications : List MedicationRow
  contact : Option EmergencyContact
  vitals : List VitalMetric
deriving DecidableEq

def Store.empty : Store := ⟨none, [], [], none, []⟩

/-- `update_patient_info`: `INSERT OR REPLACE ... (id, ...) VALUES (1, ...)`
replaces the singleton row. -/
def Store.updatePatientInfo (s : Store) (name : String) (dob : Int)
    (bloodType : BloodType) (gender : String)
    (weightKg heightCm : Option Int) : Store :=
  { s with patient := some ⟨name, dob, bloodType, gender, weightKg, heightCm⟩ }

/-- `add_allergy`: `INSERT OR REPLACE INTO allergies (substance, reaction,
severity, verified_date) VALUES (?,?,?,?)`.  The table's only uniqueness
constraint is the auto-assigned `id INTEGER PRIMARY KEY`, which is not in the
column list, so no conflict can arise and the statement appends a fresh row.
`verified_date` is `datetime.now()` at call time. -/
def Store.addAllergy (s : Store) (substance reaction : String)
    (severity : SeverityLevel) (now : Int) : Store :=
  { s with allergies := s.allergies ++ [⟨substance, reaction, severity, some now⟩] }

/-- `add_medication`: plain `INSERT`; `is_active` defaults to `TRUE`,
`notes` is not supplied. -/
def Store.addMedication (s : Store) (name dosage frequency doctor : String)
    (startDate : Int) (isCritical : Bool) : Store :=
  { s with medications :=
      s.medications ++ [⟨name, dosage, frequency, doctor, startDate, isCritical, true, none⟩] }

/-- `add_vital_metric`: plain `INSERT`; `recorded_date` is `datetime.now()`
at call time. -/
def Store.addVitalMetric (s : Store) (metricType value unit source : String)
    (isAbnormal : Bool) (now : Int) : Store :=
  { s with vitals := s.vitals ++ [⟨metricType, value, unit, now, source, isAbnormal⟩] }

/-- `set_emergency_contact`: `INSERT OR REPLACE ... (id, ...) VALUES (1, ...)`
replaces the singleton row. -/
def Store.setEmergencyContact (s : Store) (name relationship phone : String)
    (alternatePhone : Option String) : Store :=
  { s with contact := some ⟨name, relationship, phone, alternatePhone⟩ }

/-! ## Profile synthesis (EmergencyProfileManager.generate_emergency_profile,
lines 381-464) -/

/-- The error raised when no patient row exists: the code's
`ValueError("Patient information not set. Please update patient info first.")`,
the spec's `ProfileNotReadyError`. -/
inductive SynthError where
  | profileNotReady
deriving DecidableEq

/-- Descending insertion by `recorded_date` (model of
`ORDER BY recorded_date DESC` on the ISO-timestamp text column). -/
def insertDescByDate (v : VitalMetric) : List VitalMetric → List VitalMetric
  | [] => [v]
  | w :: ws =>
    if w.recorded_date < v.recorded_date then v :: w :: ws
    else w :: insertDescByDate v ws

def sortDescByDate (l : List VitalMetric) : List VitalMetric :=
  l.foldr insertDescByDate []

/-- The profile assembled from the fetched rows (lines 450-462):
conditions and surgeries are hard-coded empty (`# TODO: Implement if needed`),
a missing contact row degrades to placeholders, vitals are the rows of the
last 7 days in descending recorded order, `last_updated` is `datetime.now()`. -/
def buildProfile (s : Store) (p : PatientRow) (now : Int) : EmergencyProfile :=
  { patient_name := p.name
    date_of_birth := p.date_of_birth
    blood_type := p.blood_type
    gender := p.gender
    allergies := s.allergies
    medications :=
      (s.medications.filter fun m => m.is_active).map fun m =>
        ⟨m.name, m.dosage, m.frequency, m.prescribing_doctor, m.start_date,
          m.is_critical, m.notes⟩
    medical_conditions := []
    surgeries := []
    emergency_contact :=
      match s.contact with
      | some c => c
      | none => ⟨"Not Set", "Unknown", "Not Set", none⟩
    recent_vitals :=
      sortDescByDate (s.vitals.filter fun v =>
        decide (now - 7 * secondsPerDay < v.recorded_date))
    last_updated := now }

def generateEmergencyProfile (s : Store) (now : Int) :
    Except SynthError EmergencyProfile :=
  match s.patient with
  | none => .error .profileNotReady
  | some p => .ok (buildProfile s p now)

/-! ## Compact JSON serialization

Model of `json.dumps(emergency_data, separators=(',', ':'))` with the default
`ensure_ascii=True` and `sort_keys=False`: keys appear in dict-literal order,
no whitespace is emitted, every character outside printable ASCII is
`\uXXXX`-escaped (astral characters as surrogate pairs). -/

def hexDigits : List Char := "0123456789abcdef".data

def hexChar (n : Nat) : Char := hexDigits.getD n '0'

def hex4 (n : Nat) : List Char :=
  [hexChar (n / 4096 % 16), hexChar (n / 256 % 16), hexChar (n / 16 % 16), hexChar (n % 16)]

/-- Escape of one character inside a JSON string literal
(CPython `py_encode_basestring_ascii`). -/
def jsonEscapeChar (c : Char) : List Char :=
  if c == '\\' then ['\\', '\\']
  else if c == '"' then ['\\', '"']
  else if c == '\n' then ['\\', 'n']
  else if c == '\r' then ['\\', 'r']
  else if c == '\t' then ['\\', 't']
  else if c == '\x08' then ['\\', 'b']
  else if c == '\x0c' then ['\\', 'f']
  else if c.toNat < 0x20 then '\\' :: 'u' :: hex4 c.toNat
  else if c.toNat ≤ 0x7e then [c]
  else if c.toNat < 0x10000 then '\\' :: 'u' :: hex4 c.toNat
  else
    ('\\' :: 'u' :: hex4 (0xd800 + (c.toNat - 0x10000) / 0x400)) ++
      ('\\' :: 'u' :: hex4 (0xdc00 + (c.toNat - 0x10000) % 0x400))

def jsonStr (s : String) : String :=
  ⟨'"' :: (s.data.flatMap jsonEscapeChar ++ ['"'])⟩

def jsonOptStr : Option String → String
  | none => "null"
  | some s => jsonStr s

def jsonInt (i : Int) : String := intDec i

def jsonOptInt : Option Int → String
  | none => "null"
  | some i => jsonInt i

def jsonBool : Bool → String
  | true => "true"
  | false => "false"

/-- `",".join` over already-rendered elements. -/
def joinComma : List String → String
  | [] => ""
  | [x] => x
  | x :: xs => x ++ "," ++ joinComma xs

def jsonArr (f : α → String) (l : List α) : String :=
  "[" ++ joinComma (l.map f) ++ "]"

def jsonOfPatient (p : PatientEntry) : String :=
  "\x7b\"name\":" ++ jsonStr p.name ++ ",\"age\":" ++ jsonInt p.age ++
    ",\"dob\":" ++ jsonStr p.dob ++ ",\"blood_type\":" ++ jsonStr p.blood_type ++
    ",\"gender\":" ++ jsonStr p.gender ++ ",\"weight_kg\":" ++ jsonOptInt p.weight_kg ++
    ",\"height_cm\":" ++ jsonOptInt p.height_cm ++ "\x7d"

def jsonOfAllergyEntry (a : AllergyEntry) : String :=
  "\x7b\"substance\":" ++ jsonStr a.substance ++ ",\"reaction\":" ++ jsonStr a.reaction ++
    ",\"severity\":" ++ jsonStr a.severity ++ "\x7d"

def jsonOfMedEntry (m : MedEntry) : String :=
  "\x7b\"name\":" ++ jsonStr m.name ++ ",\"dosage\":" ++ jsonStr m.dosage ++
    ",\"critical\":" ++ jsonBool m.critical ++ "\x7d"

def jsonOfCondEntry (c : CondEntry) : String :=
  "\x7b\"condition\":" ++ jsonStr c.condition ++ ",\"status\":" ++ jsonStr c.status ++
    ",\"severity\":" ++ jsonStr c.severity ++ "\x7d"

def jsonOfContactEntry (c : ContactEntry) : String :=
  "\x7b\"name\":" ++ jsonStr c.name ++ ",\"phone\":" ++ jsonStr c.phone ++
    ",\"relationship\":" ++ jsonStr c.relationship ++ "\x7d"

def jsonOfDoctorEntry (d : DoctorEntry) : String :=
  "\x7b\"name\":" ++ jsonOptStr d.name ++ ",\"phone\":" ++ jsonOptStr d.phone ++ "\x7d"

def jsonOfVitalEntry (v : VitalEntry) : String :=
  "\x7b\"type\":" ++ jsonStr v.vtype ++ ",\"value\":" ++ jsonStr v.value ++
    ",\"date\":" ++ jsonStr v.date ++ ",\"abnormal\":" ++ jsonBool v.abnormal ++ "\x7d"

def jsonOfSurgeryEntry (s : SurgeryEntry) : String :=
  "\x7b\"procedure\":" ++ jsonStr s.procedure ++ ",\"date\":" ++ jsonStr s.date ++
    ",\"implants\":" ++ jsonOptStr s.implants ++ "\x7d"

/-- The compact JSON of the whole emergency dict, keys in dict-literal order. -/
def jsonOfDict (d : EmergencyDict) : String :=
  "\x7b\"patient\":" ++ jsonOfPatient d.patient ++
    ",\"critical_allergies\":" ++ jsonArr jsonOfAllergyEntry d.critical_allergies ++
    ",\"current_medications\":" ++ jsonArr jsonOfMedEntry d.current_medications ++
    ",\"conditions\":" ++ jsonArr jsonOfCondEntry d.conditions ++
    ",\"devices\":" ++ jsonArr jsonStr d.devices ++
    ",\"emergency_contact\":" ++ jsonOfContactEntry d.emergency_contact ++
    ",\"doctor\":" ++ jsonOfDoctorEntry d.doctor ++
    ",\"recent_vitals\":" ++ jsonArr jsonOfVitalEntry d.recent_vitals ++
    ",\"major_surgeries\":" ++ jsonArr jsonOfSurgeryEntry d.major_surgeries ++
    ",\"directives\":" ++ jsonOptStr d.directives ++
    ",\"updated\":" ++ jsonStr d.updated ++ "\x7d"

/-! ## QR encoding and cache (generate_emergency_qr, lines 466-516) -/

/-- UTF-8 byte length of one character. -/
def charUtf8Len (c : Char) : Nat :=
  if c.toNat < 0x80 then 1
  else if c.toNat < 0x800 then 2
  else if c.toNat < 0x10000 then 3
  else 4

def utf8Len (s : String) : Nat := (s.data.map charUtf8Len).sum

/-- Modelled from the spec: the third-party `qrcode` library (not part of this
repository's sources) renders the payload at error-correction level L with
`fit=True`; the byte-mode data-capacity ceiling at level L is 2953 bytes, and
a payload exceeding it must fail with `PayloadTooLargeError` (the library's
`DataOverflowError`) rather than be truncated. -/
def qrCapacityLevelL : Nat := 2953

inductive QrError where
  | profileNotReady
  | ageInvalid (msg : String)
  | payloadTooLarge
deriving DecidableEq

/-- Modelled from the spec: rendering succeeds with the full payload encoded
exactly when the payload fits the capacity ceiling; the rendered symbol is
identified with the payload it encodes. -/
def qrRender (payload : String) : Except QrError String :=
  if utf8Len payload ≤ qrCapacityLevelL then .ok payload else .error .payloadTooLarge

/-- Payload construction of `generate_emergency_qr` (lines 477-493):
compact JSON of the emergency dict behind the literal tag. -/
def computeQrPayload (p : EmergencyProfile) (now : Int) : Except QrError String := do
  let d ← (toEmergencyDict p now).mapError QrError.ageInvalid
  qrRender ("MEDICAL_EMERGENCY:" ++ jsonOfDict d)

/-- Manager state: the record store plus the cached artifact
(`emergency_qr.png` content and its mtime); `none` models an absent file. -/
structure Manager where
  store : Store
  qrCache : Option (String × Int)
deriving DecidableEq

/-- `generate_emergency_qr(profile=None)`: synthesize first (its `ValueError`
propagates before the cache is consulted), then return the cached artifact if
it is younger than one hour, else recompute, overwrite the cache and return. -/
def generateEmergencyQr (m : Manager) (now : Int) : Except QrError (String × Manager) := do
  let p ← (generateEmergencyProfile m.store now).mapError fun _ => QrError.profileNotReady
  match m.qrCache with
  | some (art, mtime) =>
    if now - 3600 < mtime then .ok (art, m)
    else do
      let payload ← computeQrPayload p now
      .ok (payload, ⟨m.store, some (payload, now)⟩)
  | none => do
    let payload ← computeQrPayload p now
    .ok (payload, ⟨m.store, some (payload, now)⟩)

/-- Artifact produced by a computation that cannot see any cache: what a
freshly invalidated manager must return. -/
def freshQrResult (s : Store) (now : Int) : Except QrError String := do
  let p ← (generateEmergencyProfile s now).mapError fun _ => QrError.profileNotReady
  computeQrPayload p now

/-! ## Store mutations seen from the manager

Every mutation method commits to the database and then calls
`_invalidate_qr_cache`, which deletes the cached artifact file. -/

inductive Mutation where
  | updatePatient (name : String) (dob : Int) (bloodType : BloodType)
      (gender : String) (weightKg heightCm : Option Int)
  | allergy (substance reaction : String) (severity : SeverityLevel)
  | medication (name dosage frequency doctor : String) (startDate : Int) (isCritical : Bool)
  | vital (metricType value unit source : String) (isAbnormal : Bool)
  | contact (name relationship phone : String) (alternatePhone : Option String)

def Mutation.applyStore : Mutation → Store → Int → Store
  | .updatePatient n dob bt g w h, s, _ => s.updatePatientInfo n dob bt g w h
  | .allergy sub rea sev, s, now => s.addAllergy sub rea sev now
  | .medication n d f doc st c, s, _ => s.addMedication n d f doc st c
  | .vital mt v u src ab, s, now => s.addVitalMetric mt v u src ab now
  | .contact n r p alt, s, _ => s.setEmergencyContact n r p alt

/-- A mutation method: write the store, then `_invalidate_qr_cache` removes
the cached artifact. -/
def Mutation.apply (mu : Mutation) (m : Manager) (now : Int) : Manager :=
  ⟨mu.applyStore m.store now, none⟩

/-! ## Text export (export_emergency_profile_text, lines 518-559) -/

/-- The deterministic multi-line text rendering.  `_calculate_age` is invoked
while the lines are built, so its `ValueError` propagates. -/
def exportEmergencyProfileText (p : EmergencyProfile) (now : Int) :
    Except String String := do
  let age ← calculateAge now p.date_of_birth
  let criticalAllergies := p.allergies.filter fun a => a.severity == SeverityLevel.critical
  let lines : List String :=
    ["=== EMERGENCY MEDICAL INFORMATION ===",
      "Patient: " ++ p.patient_name,
      "DOB: " ++ strftimeDate p.date_of_birth ++ " (Age: " ++ intDec age ++ ")",
      "Blood Type: " ++ p.blood_type.value,
      "Gender: " ++ p.gender,
      "",
      "CRITICAL ALLERGIES:"] ++
    (if criticalAllergies.isEmpty then ["  None reported"]
      else criticalAllergies.map fun a => "  - " ++ a.substance ++ ": " ++ a.reaction) ++
    ["", "CURRENT MEDICATIONS:"] ++
    (if p.medications.isEmpty then ["  None reported"]
      else p.medications.map fun m =>
        "  - " ++ m.name ++ " " ++ m.dosage ++ " " ++ m.frequency ++
          (if m.is_critical then " [CRITICAL]" else "")) ++
    ["",
      "Emergency Contact: " ++ p.emergency_contact.name ++ " (" ++
        p.emergency_contact.relationship ++ ")",
      "Phone: " ++ p.emergency_contact.phone,
      "Updated: " ++ strftimeMin p.last_updated]
  .ok (String.intercalate "\n" lines)

/-- `export_emergency_profile_text(profile=None)`: synthesize, then render. -/
def exportProfileText (s : Store) (now : Int) : Except String String :=
  match generateEmergencyProfile s now with
  | .error _ => .error "Patient information not set. Please update patient info first."
  | .ok p => exportEmergencyProfileText p now

/-! ## Definitions used to state and instantiate the claims -/

/-- The rendering applied to a surviving vital inside `to_emergency_dict`. -/
def vitalEntryOf (v : VitalMetric) : VitalEntry :=
  ⟨v.metric_type, v.value, strftimeDate v.recorded_date, v.is_abnormal⟩

/-- The vitals-selection rule exactly as the claim states it: from the FULL
vitals log take the most recent 10 by recorded-timestamp descending, then keep
entries that are abnormal or recorded within 3 days of `now`, most recent
first.  (Stated from the claim's words, for comparison with the code.) -/
def claimedVitalsSelection (vitals : List VitalMetric) (now : Int) : List VitalEntry :=
  (((sortDescByDate vitals).take 10).filter fun v =>
      v.is_abnormal || decide (now - 3 * secondsPerDay < v.recorded_date)).map vitalEntryOf

/-- The vitals-selection rule the code actually implements: restrict to the
7-day window, order descending, take the LAST 10 elements of that descending
list (the 10 oldest of the window when it holds more), then keep entries that
are abnormal or recorded within 3 days of `now`. -/
def codeVitalsSelection (vitals : List VitalMetric) (now : Int) : List VitalEntry :=
  ((takeLast 10 (sortDescByDate (vitals.filter fun v =>
        decide (now - 7 * secondsPerDay < v.recorded_date)))).filter fun v =>
      v.is_abnormal || decide (now - 3 * secondsPerDay < v.recorded_date)).map vitalEntryOf

def claim1Now : Int := dtOf 2024 6 1 12 0

/-- Eleven abnormal vitals, all inside the 7-day window, one hour apart,
`k = 1` the most recent; distinct `value` fields keep them distinguishable
after rendering. -/
def claim1Vital (k : Nat) : VitalMetric :=
  ⟨"heart_rate", natDec k, "bpm", claim1Now - 3600 * k, "wearable", true⟩

def claim1Store : Store :=
  { patient := some ⟨"Pat", dtOf 1990 1 10 0 0, .aPositive, "F", none, none⟩
    allergies := []
    medications := []
    contact := none
    vitals := (List.range 11).map fun k => claim1Vital (k + 1) }

/-- The vitals actually included in the emergency projection of `claim1Store`
(the full synthesis-then-projection pipeline). -/
def claim1Actual : Option (List VitalEntry) :=
  match generateEmergencyProfile claim1Store claim1Now with
  | .error _ => none
  | .ok p =>
    match toEmergencyDict p claim1Now with
    | .error _ => none
    | .ok d => some d.recent_vitals

/-- Two `add_allergy` calls with the same substance. -/
def claim3Store : Store :=
  (Store.empty.addAllergy "Penicillin" "Severe rash" .critical 1000).addAllergy
    "Penicillin" "Hives" .high 2000

def claim4Store : Store :=
  { patient := some ⟨"Jane", dtOf 1980 5 15 0 0, .bPositive, "F", none, none⟩
    allergies := []
    medications := []
    contact := none
    vitals := [] }

def claim5Now : Int := dtOf 2024 6 1 12 0

def claim5Profile : EmergencyProfile :=
  { patient_name := "Test Patient"
    date_of_birth := dtOf 1985 3 20 0 0
    blood_type := .oNegative
    gender := "Female"
    allergies := [⟨"Shellfish", "Anaphylaxis", .critical, none⟩]
    medications := [⟨"Insulin", "10 units", "Before meals", "Dr. Johnson", dtOf 2024 1 1 0 0, true, none⟩]
    medical_conditions := []
    surgeries := []
    emergency_contact := ⟨"John Smith", "Husband", "+1-555-987-6543", none⟩
    recent_vitals := [⟨"glucose", "180", "mg/dL", claim5Now - 3600, "home_monitor", true⟩]
    last_updated := claim5Now }

def claim5Payload : String :=
  (computeQrPayload claim5Profile claim5Now).toOption.getD ""

/-- A patient name long enough to push the payload past the level-L capacity. -/
def bigName : String := ⟨List.replicate 3000 'a'⟩

def claim6Now : Int := dtOf 2024 6 1 12 0

def claim6Row : PatientRow := ⟨bigName, dtOf 1990 1 10 0 0, .aPositive, "M", none, none⟩

def claim6Store : Store :=
  { patient := some claim6Row, allergies := [], medications := [], contact := none, vitals := [] }

def claim6M : Manager := ⟨claim6Store, none⟩

def claim6Profile : EmergencyProfile := buildProfile claim6Store claim6Row claim6Now

/-- The emergency dict of `claim6Profile` at `claim6Now`, written out. -/
def claim6Dict : EmergencyDict :=
  { patient := ⟨bigName, 34, "1990-01-10", "A+", "M", none, none⟩
    critical_allergies := []
    current_medications := []
    conditions := []
    devices := []
    emergency_contact := ⟨"Not Set", "Not Set", "Unknown"⟩
    doctor := ⟨none, none⟩
    recent_vitals := []
    major_surgeries := []
    directives := none
    updated := "2024-06-01 12:00" }

def claim7Store : Store :=
  { patient := some ⟨"Test Patient", dtOf 1985 3 20 0 0, .oNegative, "Female", some 65, some 165⟩
    allergies := []
    medications := [⟨"Insulin", "10 units", "Before meals", "Dr. J", dtOf 2024 1 1 0 0, true, true, none⟩]
    contact := some ⟨"John Smith", "Husband", "+1-555-987-6543", none⟩
    vitals := [] }

def claim9Store : Store := claim4Store

def claim10Dob : Int := dtOf 2000 2 29 0 0

def claim10Now : Int := dtOf 2023 3 1 9 0

def claim10Profile : EmergencyProfile :=
  { patient_name := "Leap"
    date_of_birth := claim10Dob
    blood_type := .unknown
    gender := "F"
    allergies := []
    medications := []
    medical_conditions := []
    surgeries := []
    emergency_contact := ⟨"C", "Friend", "1", none⟩
    recent_vitals := []
    last_updated := claim10Now }

/-- Printable-ASCII character range: the alphabet of the encoded payload.
Implies single-byte UTF-8 and excludes line breaks and all control characters. -/
def asciiPrintable (s : String) : Prop :=
  ∀ c ∈ s.data, 0x20 ≤ c.toNat ∧ c.toNat ≤ 0x7e

instance (s : String) : Decidable (asciiPrintable s) :=
  inferInstanceAs (Decidable (∀ c ∈ s.data, 0x20 ≤ c.toNat ∧ c.toNat ≤ 0x7e))

def emptyDict : EmergencyDict :=
  ⟨⟨"", 0, "", "", "", none, none⟩, [], [], [], [], ⟨"", "", ""⟩, ⟨none, none⟩, [], [], none, ""⟩

def claim1Row : PatientRow := ⟨"Pat", dtOf 1990 1 10 0 0, .aPositive, "F", none, none⟩

def claim1Profile : EmergencyProfile := buildProfile claim1Store claim1Row claim1Now

def claim1Dict : EmergencyDict :=
  (toEmergencyDict claim1Profile claim1Now).toOption.getD emptyDict

/-! ## Theorems -/

/-- Claim C2: after any store mutation (identity update, allergy add,
medication add, vital add, contact set) the cache is synchronously cleared,
and the next call to the artifact getter returns exactly the artifact
recomputed from the post-mutation store state — never the pre-mutation
cached artifact. -/
theorem claim2_mutation_invalidates_cache :
    ∀ (mu : Mutation) (m : Manager) (tmut now : Int),
      (mu.apply m tmut).qrCache = none ∧
      (generateEmergencyQr (mu.apply m tmut) now).map Prod.fst =
        freshQrResult (mu.apply m tmut).store now := by
  intro mu m tmut now
  refine ⟨rfl, ?_⟩
  unfold generateEmergencyQr freshQrResult Mutation.apply
  cases hg : generateEmergencyProfile (mu.applyStore m.store tmut) now with
  | error e => simp [hg, Except.mapError, Except.map, bind, Except.bind]
  | ok p =>
    simp only [hg, Except.mapError, bind, Except.bind]
    cases hc : computeQrPayload p now with
    | error e => simp [hc, Except.map]
    | ok pay => simp [hc, Except.map]

/-- Claim C3 (evaluation at the failing input): two `add_allergy` calls with
the same substance leave TWO rows for that substance in the store — the
`INSERT OR REPLACE` has no uniqueness constraint on `substance` to conflict
with, so the claimed upsert does not happen. -/
theorem claim3_duplicate_substance_rows :
    claim3Store.allergies.countP (fun a => a.substance == "Penicillin") = 2 := by decide

/-- Claim C4: synthesis on a store with no patient row fails with the
profile-not-ready error and returns no partial view; with a patient row it
always succeeds, a missing contact degrading to the "Not Set"/"Unknown"
placeholder rather than an error. -/
theorem claim4_missing_identity_aborts :
    ∀ (s : Store) (now : Int),
      (s.patient = none → generateEmergencyProfile s now = .error .profileNotReady) ∧
      (∀ p, s.patient = some p →
        generateEmergencyProfile s now = .ok (buildProfile s p now) ∧
        (s.contact = none →
          (buildProfile s p now).emergency_contact = ⟨"Not Set", "Unknown", "Not Set", none⟩)) := by
  intro s now
  constructor
  · intro h
    unfold generateEmergencyProfile
    rw [h]
  · intro p hp
    constructor
    · unfold generateEmergencyProfile
      rw [hp]
    · intro hc
      unfold buildProfile
      rw [hc]

theorem claim4_witness :
    generateEmergencyProfile Store.empty 0 = .error .profileNotReady ∧
    (buildProfile claim4Store ⟨"Jane", dtOf 1980 5 15 0 0, .bPositive, "F", none, none⟩
        claim1Now).emergency_contact = ⟨"Not Set", "Unknown", "Not Set", none⟩ :=
  ⟨(claim4_missing_identity_aborts Store.empty 0).1 rfl,
    ((claim4_missing_identity_aborts claim4Store claim1Now).2
      ⟨"Jane", dtOf 1980 5 15 0 0, .bPositive, "F", none, none⟩ rfl).2 rfl⟩

/-- Claim C9: every synthesized profile has empty `medical_conditions` and
empty `surgeries`, whatever the store holds, so the active-condition filter
and the last-5-surgeries rule only ever see empty input in the projection. -/
theorem claim9_conditions_surgeries_always_empty :
    ∀ (s : Store) (now : Int) (p : EmergencyProfile),
      generateEmergencyProfile s now = .ok p →
      p.medical_conditions = [] ∧ p.surgeries = [] ∧
      ∀ (t : Int) (d : EmergencyDict), toEmergencyDict p t = .ok d →
        d.conditions = [] ∧ d.major_surgeries = [] := by
  intro s now p hp
  unfold generateEmergencyProfile at hp
  cases hs : s.patient with
  | none => rw [hs] at hp; cases hp
  | some pr =>
    rw [hs] at hp
    cases hp
    refine ⟨rfl, rfl, ?_⟩
    intro t d hd
    unfold toEmergencyDict at hd
    cases ha : calculateAge t (buildProfile s pr now).date_of_birth with
    | error e => rw [ha] at hd; cases hd
    | ok age =>
      rw [ha] at hd
      simp only [bind, Except.bind, Except.ok.injEq] at hd
      cases hd
      exact ⟨rfl, rfl⟩

theorem claim9_witness :
    (buildProfile claim9Store ⟨"Jane", dtOf 1980 5 15 0 0, .bPositive, "F", none, none⟩
        claim1Now).medical_conditions = [] ∧
    (buildProfile claim9Store ⟨"Jane", dtOf 1980 5 15 0 0, .bPositive, "F", none, none⟩
        claim1Now).surgeries = [] :=
  ⟨(claim9_conditions_surgeries_always_empty claim9Store claim1Now _ rfl).1,
    (claim9_conditions_surgeries_always_empty claim9Store claim1Now _ rfl).2.1⟩

/-- Claim C8: whenever `_calculate_age` computes an age it equals the
elapsed-years count, decremented by one exactly when the birthday month/day
has not yet been reached in the current year; DOB 1990-06-15 yields 33 on
2024-06-14 and 34 on 2024-06-15. -/
theorem claim8_birthday_rule :
    (∀ (now dob a : Int), calculateAge now dob = .ok a →
      a = (dtDate now).year - (dtDate dob).year -
        (if (dtDate now).month < (dtDate dob).month ∨
            ((dtDate now).month = (dtDate dob).month ∧ (dtDate now).day < (dtDate dob).day)
          then 1 else 0)) ∧
    calculateAge (dtOf 2024 6 14 0 0) (dtOf 1990 6 15 0 0) = .ok 33 ∧
    calculateAge (dtOf 2024 6 15 0 0) (dtOf 1990 6 15 0 0) = .ok 34 := by
  refine ⟨?_, by decide, by decide⟩
  intro now dob a h
  simp only [calculateAge] at h
  split at h
  · simp only [Except.ok.injEq] at h
    subst h
    cases hb : Date.lt (dtDate now)
        ⟨(dtDate now).year, (dtDate dob).month, (dtDate dob).day⟩ with
    | false =>
      simp only [hb, Bool.false_eq_true, if_false]
      simp only [Date.lt, Bool.or_eq_false_iff, Bool.and_eq_false_iff,
        decide_eq_false_iff_not, beq_iff_eq, beq_eq_false_iff_ne] at hb
      split_ifs with hP
      · omega
      · omega
    | true =>
      simp only [hb, if_true]
      simp only [Date.lt, Bool.or_eq_true, Bool.and_eq_true,
        decide_eq_true_eq, beq_iff_eq] at hb
      split_ifs with hP
      · omega
      · omega
  · cases h

theorem claim8_witness :
    calculateAge (dtOf 2024 6 14 0 0) (dtOf 1990 6 15 0 0) = .ok 33 ∧
    33 = (dtDate (dtOf 2024 6 14 0 0)).year - (dtDate (dtOf 1990 6 15 0 0)).year -
      (if (dtDate (dtOf 2024 6 14 0 0)).month < (dtDate (dtOf 1990 6 15 0 0)).month ∨
          ((dtDate (dtOf 2024 6 14 0 0)).month = (dtDate (dtOf 1990 6 15 0 0)).month ∧
            (dtDate (dtOf 2024 6 14 0 0)).day < (dtDate (dtOf 1990 6 15 0 0)).day)
        then 1 else 0) :=
  ⟨claim8_birthday_rule.2.1, claim8_birthday_rule.1 _ _ 33 claim8_birthday_rule.2.1⟩

/-- Claim C10: a profile whose date of birth is February 29 makes the age
calculation fail whenever the current year is not a leap year (the comparison
date is built by substituting the current year into the birth date), and the
failure propagates through both the emergency-dict projection and the text
export. -/
theorem claim10_feb29_crashes :
    ∀ (p : EmergencyProfile) (now : Int),
      (dtDate p.date_of_birth).month = 2 →
      (dtDate p.date_of_birth).day = 29 →
      isLeapYear (dtDate now).year = false →
      calculateAge now p.date_of_birth = .error "day is out of range for month" ∧
      toEmergencyDict p now = .error "day is out of range for month" ∧
      exportEmergencyProfileText p now = .error "day is out of range for month" := by
  intro p now hm hd hleap
  have hv : isValidDate (dtDate now).year (dtDate p.date_of_birth).month
      (dtDate p.date_of_birth).day = false := by
    rw [hm, hd]
    unfold isValidDate daysInMonth
    simp [hleap]
  have hage : calculateAge now p.date_of_birth = .error "day is out of range for month" := by
    unfold calculateAge
    simp [hv]
  refine ⟨hage, ?_, ?_⟩
  · unfold toEmergencyDict
    rw [hage]
    rfl
  · unfold exportEmergencyProfileText
    rw [hage]
    rfl

theorem claim10_witness :
    calculateAge claim10Now claim10Dob = .error "day is out of range for month" ∧
    toEmergencyDict claim10Profile claim10Now = .error "day is out of range for month" ∧
    exportEmergencyProfileText claim10Profile claim10Now =
      .error "day is out of range for month" :=
  claim10_feb29_crashes claim10Profile claim10Now (by decide) (by decide) (by decide)

/-- Claim C1 counterexample: a store of eleven abnormal vitals, one hour
apart, all inside the 7-day window.  The claimed rule keeps the ten most
recent; the pipeline instead keeps the ten OLDEST of the window (the
`[-10:]` slice of a descending list), so the projections differ. -/
theorem claim1_counterexample :
    claim1Actual.isSome = true ∧
    claim1Actual ≠ some (claimedVitalsSelection claim1Store.vitals claim1Now) := by
  constructor
  · decide
  · decide

/-- Claim C1 (amended): the vitals of the emergency projection are obtained
by restricting the log to entries recorded within 7 days of `now`, ordering
by recorded-timestamp descending, taking the LAST 10 elements of that
descending list (the 10 oldest of the window when it holds more than 10),
and then keeping only entries with abnormal==true or recorded within 3 days
of `now`; the surviving entries keep their descending order. -/
theorem claim1_amended_vitals_rule :
    ∀ (s : Store) (now : Int) (p : EmergencyProfile) (d : EmergencyDict),
      generateEmergencyProfile s now = .ok p →
      toEmergencyDict p now = .ok d →
      d.recent_vitals = codeVitalsSelection s.vitals now := by
  intro s now p d hp hd
  unfold generateEmergencyProfile at hp
  cases hs : s.patient with
  | none => rw [hs] at hp; cases hp
  | some pr =>
    rw [hs] at hp
    cases hp
    unfold toEmergencyDict at hd
    cases ha : calculateAge now (buildProfile s pr now).date_of_birth with
    | error e => rw [ha] at hd; cases hd
    | ok age =>
      rw [ha] at hd
      simp only [bind, Except.bind, Except.ok.injEq] at hd
      cases hd
      rfl

theorem claim1_witness :
    claim1Dict.recent_vitals = codeVitalsSelection claim1Store.vitals claim1Now :=
  claim1_amended_vitals_rule claim1Store claim1Now claim1Profile claim1Dict rfl rfl

set_option maxRecDepth 16000 in
/-- Claim C7 counterexample: with an unchanged store, rendering the text
export of a fresh synthesis at 10:00 and again at 10:01 the same day yields
two different strings — the "Updated:" line embeds the synthesis time at
minute resolution — refuting idempotence across invocations at different
times. -/
theorem claim7_counterexample :
    (exportProfileText claim7Store (dtOf 2024 6 1 10 0)).toOption.isSome = true ∧
    (exportProfileText claim7Store (dtOf 2024 6 1 10 1)).toOption.isSome = true ∧
    exportProfileText claim7Store (dtOf 2024 6 1 10 0) ≠
      exportProfileText claim7Store (dtOf 2024 6 1 10 1) := by
  refine ⟨by decide, by decide, by decide⟩

/-- Claim C7 (amended): the text-export pipeline is a function of the store
snapshot and the invocation time only — two invocations with unchanged store
during the same wall-clock minute yield identical strings.  (Across
different minutes the output may change: the Updated line and the age are
derived from the current time; see the counterexample.) -/
theorem claim7_amended_deterministic :
    ∀ (s : Store) (t1 t2 : Int), tMinutes t1 = tMinutes t2 →
      exportProfileText s t1 = exportProfileText s t2 := by
  intro s t1 t2 h
  cases hp : s.patient with
  | none => simp [exportProfileText, generateEmergencyProfile, hp]
  | some pr =>
    simp only [exportProfileText, generateEmergencyProfile, hp]
    simp only [exportEmergencyProfileText, buildProfile, calculateAge, dtDate, tDays,
      strftimeMin]
    rw [h]

theorem claim7_witness :
    exportProfileText claim7Store (dtOf 2024 6 1 10 0 + 10) =
      exportProfileText claim7Store (dtOf 2024 6 1 10 0 + 20) :=
  claim7_amended_deterministic claim7Store _ _ (by decide)

/-! ## Alphabet lemmas for the encoded payload (used by the C5/C6 theorems) -/

theorem asciiPrintable_append {s t : String}
    (hs : asciiPrintable s) (ht : asciiPrintable t) : asciiPrintable (s ++ t) := by
  intro c hc
  rw [String.data_append] at hc
  rcases List.mem_append.1 hc with h | h
  exacts [hs c h, ht c h]

theorem getD_printable :
    ∀ (l : List Char) (n : Nat) (d : Char),
      (∀ c ∈ l, 0x20 ≤ c.toNat ∧ c.toNat ≤ 0x7e) →
      (0x20 ≤ d.toNat ∧ d.toNat ≤ 0x7e) →
      0x20 ≤ (l.getD n d).toNat ∧ (l.getD n d).toNat ≤ 0x7e := by
  intro l
  induction l with
  | nil => intro n d _ hd; simpa [List.getD] using hd
  | cons x xs ih =>
    intro n d hl hd
    cases n with
    | zero => simpa [List.getD] using hl x (by simp)
    | succ n =>
      simpa [List.getD] using ih n d (fun c hc => hl c (by simp [hc])) hd

theorem hexChar_printable (n : Nat) :
    0x20 ≤ (hexChar n).toNat ∧ (hexChar n).toNat ≤ 0x7e :=
  getD_printable hexDigits n '0' (by decide) (by decide)

theorem hex4_printable (n : Nat) :
    ∀ c ∈ hex4 n, 0x20 ≤ c.toNat ∧ c.toNat ≤ 0x7e := by
  intro c hc
  simp only [hex4, List.mem_cons, List.mem_singleton, List.not_mem_nil, or_false] at hc
  rcases hc with rfl | rfl | rfl | rfl <;> exact hexChar_printable _

theorem jsonEscapeChar_printable (c : Char) :
    ∀ c' ∈ jsonEscapeChar c, 0x20 ≤ c'.toNat ∧ c'.toNat ≤ 0x7e := by
  intro c' hc'
  unfold jsonEscapeChar at hc'
  iterate 12 (all_goals try (split at hc'))
  · rcases List.mem_cons.1 hc' with rfl | hc'
    · decide
    · rcases List.mem_singleton.1 hc' with rfl; decide
  · rcases List.mem_cons.1 hc' with rfl | hc'
    · decide
    · rcases List.mem_singleton.1 hc' with rfl; decide
  · rcases List.mem_cons.1 hc' with rfl | hc'
    · decide
    · rcases List.mem_singleton.1 hc' with rfl; decide
  · rcases List.mem_cons.1 hc' with rfl | hc'
    · decide
    · rcases List.mem_singleton.1 hc' with rfl; decide
  · rcases List.mem_cons.1 hc' with rfl | hc'
    · decide
    · rcases List.mem_singleton.1 hc' with rfl; decide
  · rcases List.mem_cons.1 hc' with rfl | hc'
    · decide
    · rcases List.mem_singleton.1 hc' with rfl; decide
  · rcases List.mem_cons.1 hc' with rfl | hc'
    · decide
    · rcases List.mem_singleton.1 hc' with rfl; decide
  · rcases List.mem_cons.1 hc' with rfl | hc'
    · decide
    · rcases List.mem_cons.1 hc' with rfl | hc'
      · decide
      · exact hex4_printable _ _ hc'
  · rcases List.mem_singleton.1 hc' with rfl
    omega
  · rcases List.mem_cons.1 hc' with rfl | hc'
    · decide
    · rcases List.mem_cons.1 hc' with rfl | hc'
      · decide
      · exact hex4_printable _ _ hc'
  · rcases List.mem_append.1 hc' with hc' | hc'
    · rcases List.mem_cons.1 hc' with rfl | hc'
      · decide
      · rcases List.mem_cons.1 hc' with rfl | hc'
        · decide
        · exact hex4_printable _ _ hc'
    · rcases List.mem_cons.1 hc' with rfl | hc'
      · decide
      · rcases List.mem_cons.1 hc' with rfl | hc'
        · decide
        · exact hex4_printable _ _ hc'

theorem asciiPrintable_jsonStr (s : String) : asciiPrintable (jsonStr s) := by
  intro c hc
  have hdata : (jsonStr s).data = '"' :: (s.data.flatMap jsonEscapeChar ++ ['"']) := rfl
  rw [hdata] at hc
  rcases List.mem_cons.1 hc with rfl | hc
  · decide
  · rcases List.mem_append.1 hc with hc | hc
    · rcases List.mem_flatMap.1 hc with ⟨a, _, ha⟩
      exact jsonEscapeChar_printable a c ha
    · rcases List.mem_singleton.1 hc with rfl
      decide

theorem digitChar_printable (n : Nat) :
    0x20 ≤ (Nat.digitChar n).toNat ∧ (Nat.digitChar n).toNat ≤ 0x7e := by
  by_cases h : n < 16
  · interval_cases n <;> decide
  · have h16 : Nat.digitChar n = '*' := by
      unfold Nat.digitChar
      iterate 16 (rw [if_neg (by omega)])
    rw [h16]
    decide

theorem natDecAux_printable :
    ∀ (fuel n : Nat), ∀ c ∈ natDecAux fuel n, 0x20 ≤ c.toNat ∧ c.toNat ≤ 0x7e := by
  intro fuel
  induction fuel with
  | zero => intro n c hc; cases hc
  | succ fuel ih =>
    intro n c hc
    unfold natDecAux at hc
    split at hc
    · rcases List.mem_singleton.1 hc with rfl
      exact digitChar_printable _
    · rcases List.mem_append.1 hc with hc | hc
      · exact ih (n / 10) c hc
      · rcases List.mem_singleton.1 hc with rfl
        exact digitChar_printable _

theorem asciiPrintable_natDec (n : Nat) : asciiPrintable (natDec n) := by
  intro c hc
  exact natDecAux_printable (n + 1) n c hc

theorem asciiPrintable_intDec (i : Int) : asciiPrintable (intDec i) := by
  unfold intDec
  split_ifs
  · exact asciiPrintable_append (by decide) (asciiPrintable_natDec _)
  · exact asciiPrintable_natDec _

theorem asciiPrintable_jsonInt (i : Int) : asciiPrintable (jsonInt i) :=
  asciiPrintable_intDec i

theorem asciiPrintable_jsonOptInt (o : Option Int) : asciiPrintable (jsonOptInt o) := by
  cases o with
  | none => decide
  | some i => exact asciiPrintable_jsonInt i

theorem asciiPrintable_jsonOptStr (o : Option String) : asciiPrintable (jsonOptStr o) := by
  cases o with
  | none => decide
  | some s => exact asciiPrintable_jsonStr s

theorem asciiPrintable_jsonBool (b : Bool) : asciiPrintable (jsonBool b) := by
  cases b <;> decide

theorem asciiPrintable_joinComma :
    ∀ (l : List String), (∀ s ∈ l, asciiPrintable s) → asciiPrintable (joinComma l) := by
  intro l
  induction l with
  | nil => intro _ c hc; cases hc
  | cons x xs ih =>
    intro h
    cases xs with
    | nil => simpa [joinComma] using h x (by simp)
    | cons y ys =>
      rw [show joinComma (x :: y :: ys) = x ++ "," ++ joinComma (y :: ys) from rfl]
      exact asciiPrintable_append
        (asciiPrintable_append (h x (by simp)) (by decide))
        (ih fun s hs => h s (by simp [hs]))

theorem asciiPrintable_jsonArr {α : Type} (f : α → String) (l : List α)
    (h : ∀ a, asciiPrintable (f a)) : asciiPrintable (jsonArr f l) := by
  unfold jsonArr
  refine asciiPrintable_append (asciiPrintable_append (by decide) ?_) (by decide)
  refine asciiPrintable_joinComma _ ?_
  intro s hs
  rcases List.mem_map.1 hs with ⟨a, _, rfl⟩
  exact h a

theorem asciiPrintable_jsonOfPatient (p : PatientEntry) :
    asciiPrintable (jsonOfPatient p) := by
  unfold jsonOfPatient
  iterate 14 (refine asciiPrintable_append ?_ ?_)
  · decide
  · exact asciiPrintable_jsonStr _
  · decide
  · exact asciiPrintable_jsonInt _
  · decide
  · exact asciiPrintable_jsonStr _
  · decide
  · exact asciiPrintable_jsonStr _
  · decide
  · exact asciiPrintable_jsonStr _
  · decide
  · exact asciiPrintable_jsonOptInt _
  · decide
  · exact asciiPrintable_jsonOptInt _
  · decide

theorem asciiPrintable_jsonOfAllergyEntry (a : AllergyEntry) :
    asciiPrintable (jsonOfAllergyEntry a) := by
  unfold jsonOfAllergyEntry
  iterate 6 (refine asciiPrintable_append ?_ ?_)
  · decide
  · exact asciiPrintable_jsonStr _
  · decide
  · exact asciiPrintable_jsonStr _
  · decide
  · exact asciiPrintable_jsonStr _
  · decide

theorem asciiPrintable_jsonOfMedEntry (m : MedEntry) :
    asciiPrintable (jsonOfMedEntry m) := by
  unfold jsonOfMedEntry
  iterate 6 (refine asciiPrintable_append ?_ ?_)
  · decide
  · exact asciiPrintable_jsonStr _
  · decide
  · exact asciiPrintable_jsonStr _
  · decide
  · exact asciiPrintable_jsonBool _
  · decide

theorem asciiPrintable_jsonOfCondEntry (c : CondEntry) :
    asciiPrintable (jsonOfCondEntry c) := by
  unfold jsonOfCondEntry
  iterate 6 (refine asciiPrintable_append ?_ ?_)
  · decide
  · exact asciiPrintable_jsonStr _
  · decide
  · exact asciiPrintable_jsonStr _
  · decide
  · exact asciiPrintable_jsonStr _
  · decide

theorem asciiPrintable_jsonOfContactEntry (c : ContactEntry) :
    asciiPrintable (jsonOfContactEntry c) := by
  unfold jsonOfContactEntry
  iterate 6 (refine asciiPrintable_append ?_ ?_)
  · decide
  · exact asciiPrintable_jsonStr _
  · decide
  · exact asciiPrintable_jsonStr _
  · decide
  · exact asciiPrintable_jsonStr _
  · decide

theorem asciiPrintable_jsonOfDoctorEntry (d : DoctorEntry) :
    asciiPrintable (jsonOfDoctorEntry d) := by
  unfold jsonOfDoctorEntry
  iterate 4 (refine asciiPrintable_append ?_ ?_)
  · decide
  · exact asciiPrintable_jsonOptStr _
  · decide
  · exact asciiPrintable_jsonOptStr _
  · decide

theorem asciiPrintable_jsonOfVitalEntry (v : VitalEntry) :
    asciiPrintable (jsonOfVitalEntry v) := by
  unfold jsonOfVitalEntry
  iterate 8 (refine asciiPrintable_append ?_ ?_)
  · decide
  · exact asciiPrintable_jsonStr _
  · decide
  · exact asciiPrintable_jsonStr _
  · decide
  · exact asciiPrintable_jsonStr _
  · decide
  · exact asciiPrintable_jsonBool _
  · decide

theorem asciiPrintable_jsonOfSurgeryEntry (s : SurgeryEntry) :
    asciiPrintable (jsonOfSurgeryEntry s) := by
  unfold jsonOfSurgeryEntry
  iterate 6 (refine asciiPrintable_append ?_ ?_)
  · decide
  · exact asciiPrintable_jsonStr _
  · decide
  · exact asciiPrintable_jsonStr _
  · decide
  · exact asciiPrintable_jsonOptStr _
  · decide

theorem asciiPrintable_jsonArrOf {α : Type} (f : α → String)
    (hf : ∀ a, asciiPrintable (f a)) (l : List α) :
    asciiPrintable (jsonArr f l) := by
  unfold jsonArr
  iterate 2 (refine asciiPrintable_append ?_ ?_)
  · decide
  · refine asciiPrintable_joinComma _ ?_
    intro s hs
    rcases List.mem_map.1 hs with ⟨a, _, rfl⟩
    exact hf a
  · decide

theorem asciiPrintable_jsonOfDict (d : EmergencyDict) :
    asciiPrintable (jsonOfDict d) := by
  unfold jsonOfDict
  iterate 22 (refine asciiPrintable_append ?_ ?_)
  · decide
  · exact asciiPrintable_jsonOfPatient _
  · decide
  · exact asciiPrintable_jsonArrOf _ asciiPrintable_jsonOfAllergyEntry _
  · decide
  · exact asciiPrintable_jsonArrOf _ asciiPrintable_jsonOfMedEntry _
  · decide
  · exact asciiPrintable_jsonArrOf _ asciiPrintable_jsonOfCondEntry _
  · decide
  · exact asciiPrintable_jsonArrOf _ asciiPrintable_jsonStr _
  · decide
  · exact asciiPrintable_jsonOfContactEntry _
  · decide
  · exact asciiPrintable_jsonOfDoctorEntry _
  · decide
  · exact asciiPrintable_jsonArrOf _ asciiPrintable_jsonOfVitalEntry _
  · decide
  · exact asciiPrintable_jsonArrOf _ asciiPrintable_jsonOfSurgeryEntry _
  · decide
  · exact asciiPrintable_jsonOptStr _
  · decide
  · exact asciiPrintable_jsonStr _
  · decide

theorem utf8Len_append (s t : String) :
    utf8Len (s ++ t) = utf8Len s + utf8Len t := by
  simp [utf8Len, String.data_append]

theorem charUtf8Len_of_printable {c : Char}
    (h : 0x20 ≤ c.toNat ∧ c.toNat ≤ 0x7e) : charUtf8Len c = 1 := by
  unfold charUtf8Len
  rw [if_pos (by omega)]

theorem utf8Len_of_printable :
    ∀ (l : List Char), (∀ c ∈ l, 0x20 ≤ c.toNat ∧ c.toNat ≤ 0x7e) →
      (l.map charUtf8Len).sum = l.length := by
  intro l
  induction l with
  | nil => intro _; rfl
  | cons x xs ih =>
    intro h
    simp only [List.map_cons, List.sum_cons, List.length_cons,
      charUtf8Len_of_printable (h x (by simp)), ih fun c hc => h c (by simp [hc])]
    omega

theorem asciiPrintable_utf8Len {s : String} (h : asciiPrintable s) :
    utf8Len s = s.length := by
  show (s.data.map charUtf8Len).sum = s.length
  rw [utf8Len_of_printable s.data h]
  rfl

/-- Claim C5: a successfully produced optical-code payload is exactly the
literal tag "MEDICAL_EMERGENCY:" followed by the compact fixed-key-order JSON
of the emergency dict, and every character of it is printable ASCII — hence
single-byte UTF-8, no line breaks and no extraneous whitespace characters
outside the 0x20 space inside string values. -/
theorem claim5_payload_format :
    ∀ (p : EmergencyProfile) (now : Int) (payload : String),
      computeQrPayload p now = .ok payload →
      (∃ d, toEmergencyDict p now = .ok d ∧
        payload = "MEDICAL_EMERGENCY:" ++ jsonOfDict d) ∧
      asciiPrintable payload ∧ utf8Len payload = payload.length := by
  intro p now payload h
  unfold computeQrPayload at h
  cases hd : toEmergencyDict p now with
  | error e => rw [hd] at h; cases h
  | ok d =>
    rw [hd] at h
    simp only [Except.mapError, bind, Except.bind] at h
    unfold qrRender at h
    split at h
    · cases h
      have hp : asciiPrintable ("MEDICAL_EMERGENCY:" ++ jsonOfDict d) :=
        asciiPrintable_append (by decide) (asciiPrintable_jsonOfDict d)
      exact ⟨⟨d, rfl, rfl⟩, hp, asciiPrintable_utf8Len hp⟩
    · cases h

set_option maxRecDepth 100000 in
theorem claim5_witness :
    asciiPrintable claim5Payload ∧ utf8Len claim5Payload = claim5Payload.length :=
  (claim5_payload_format claim5Profile claim5Now claim5Payload rfl).2

/-- Claim C6: with an empty cache, the artifact getter fails with
`PayloadTooLargeError` whenever the serialized payload exceeds the level-L
capacity ceiling, and otherwise returns the artifact encoding the COMPLETE
payload — it never truncates. -/
theorem claim6_capacity_guard :
    ∀ (m : Manager) (now : Int) (p : EmergencyProfile) (d : EmergencyDict),
      m.qrCache = none →
      generateEmergencyProfile m.store now = .ok p →
      toEmergencyDict p now = .ok d →
      (qrCapacityLevelL < utf8Len ("MEDICAL_EMERGENCY:" ++ jsonOfDict d) →
        generateEmergencyQr m now = .error .payloadTooLarge) ∧
      (utf8Len ("MEDICAL_EMERGENCY:" ++ jsonOfDict d) ≤ qrCapacityLevelL →
        (generateEmergencyQr m now).map Prod.fst =
          .ok ("MEDICAL_EMERGENCY:" ++ jsonOfDict d)) := by
  intro m now p d hc hp hd
  constructor
  · intro hbig
    unfold generateEmergencyQr
    rw [hp]
    simp only [Except.mapError, bind, Except.bind, hc]
    unfold computeQrPayload
    rw [hd]
    simp only [Except.mapError, bind, Except.bind]
    unfold qrRender
    rw [if_neg (by omega)]
  · intro hfit
    unfold generateEmergencyQr
    rw [hp]
    simp only [Except.mapError, bind, Except.bind, hc]
    unfold computeQrPayload
    rw [hd]
    simp only [Except.mapError, bind, Except.bind]
    unfold qrRender
    rw [if_pos hfit]
    rfl

theorem flatMap_escape_replicate :
    ∀ n, (List.replicate n 'a').flatMap jsonEscapeChar = List.replicate n 'a' := by
  intro n
  induction n with
  | zero => rfl
  | succ k ih =>
    simp only [List.replicate_succ, List.flatMap_cons, ih,
      show jsonEscapeChar 'a' = ['a'] from by decide]
    rfl

theorem utf8Len_jsonStr_bigName : utf8Len (jsonStr bigName) = 3002 := by
  show ((jsonStr bigName).data.map charUtf8Len).sum = 3002
  have hd : (jsonStr bigName).data =
      '"' :: ((List.replicate 3000 'a').flatMap jsonEscapeChar ++ ['"']) := rfl
  rw [hd, flatMap_escape_replicate]
  simp only [List.map_cons, List.map_append, List.map_replicate, List.sum_cons,
    List.sum_append, List.sum_replicate, smul_eq_mul,
    show charUtf8Len 'a' = 1 from rfl, show charUtf8Len '"' = 1 from rfl]
  norm_num

set_option maxRecDepth 16000 in
theorem claim6_witness :
    generateEmergencyQr claim6M claim6Now = .error .payloadTooLarge := by
  refine (claim6_capacity_guard claim6M claim6Now claim6Profile claim6Dict rfl rfl rfl).1 ?_
  rw [utf8Len_append]
  have h1 := utf8Len_jsonStr_bigName
  simp only [claim6Dict, jsonOfDict, jsonOfPatient, utf8Len_append, qrCapacityLevelL]
  omega

end EmergencySys
